import Mathlib

set_option autoImplicit false

/-!
Shallow embedding of the BrowserOS sidecar supervisor and updater
(chrome/browser/browseros/server in the Bulle-Cloud repository).

Modelling conventions: a filesystem path is its list of appended components
(mirroring repeated base::FilePath::Append), a byte string is a list of byte
values, and a base::Version is an optional list of numeric components, with
none standing for an invalid base::Version (default constructed, or a failed
parse). External collaborators (base64 decoding, file reads, the raw
ED25519_verify primitive, JSON text parsing) are passed in as oracle
functions, so the control flow around them is what is embedded and proved.
-/

namespace BrowserOS

/-! ## Data model: launch configuration (browseros_server_config.h/.cc) -/

/-- browseros::ServerPorts (browseros_server_config.h): port assignments for
the three server endpoints, int fields defaulting to 0. -/
structure ServerPorts where
  cdp : Int := 0
  mcp : Int := 0
  extension : Int := 0
  deriving DecidableEq, Repr

/-- ServerPorts::IsValid (browseros_server_config.cc:17): cdp > 0 and
mcp > 0 and extension > 0. -/
def ServerPorts.IsValid (p : ServerPorts) : Bool :=
  decide (0 < p.cdp) && decide (0 < p.mcp) && decide (0 < p.extension)

/-- browseros::ServerPaths (browseros_server_config.h): filesystem locations
needed to launch the server; each base::FilePath is modelled by its string
form, the empty string for a default-constructed path. -/
structure ServerPaths where
  exe : String := ""
  fallback_exe : String := ""
  resources : String := ""
  fallback_resources : String := ""
  execution : String := ""
  deriving DecidableEq, Repr

/-- ServerPaths::IsValid (browseros_server_config.cc:38): the exe path and
the execution path are non-empty. -/
def ServerPaths.IsValid (p : ServerPaths) : Bool :=
  !(p.exe == "") && !(p.execution == "")

/-- browseros::ServerIdentity (browseros_server_config.h). -/
structure ServerIdentity where
  install_id : String := ""
  browseros_version : String := ""
  chromium_version : String := ""
  deriving DecidableEq, Repr

/-- browseros::ServerLaunchConfig (browseros_server_config.h). -/
structure ServerLaunchConfig where
  ports : ServerPorts := {}
  paths : ServerPaths := {}
  identity : ServerIdentity := {}
  allow_remote_in_mcp : Bool := false
  deriving DecidableEq, Repr

/-- ServerLaunchConfig::IsValid (browseros_server_config.cc:68). -/
def ServerLaunchConfig.IsValid (c : ServerLaunchConfig) : Bool :=
  c.ports.IsValid && c.paths.IsValid

/-! ## Versions (base::Version as used by the updater) -/

/-- Comparison of two valid base::Version component lists
(base::Version::CompareTo): componentwise numeric comparison, a missing
trailing component counting as 0. -/
def versionCmp : List Nat → List Nat → Ordering
  | [], [] => .eq
  | [], b :: bs => if 0 < b then .lt else versionCmp [] bs
  | a :: as, [] => if 0 < a then .gt else versionCmp as []
  | a :: as, b :: bs =>
    if a < b then .lt else if b < a then .gt else versionCmp as bs

/-- operator> on two valid base::Version values. -/
def versionGt (a b : List Nat) : Bool :=
  match versionCmp a b with
  | .gt => true
  | _ => false

/-- base::Version::GetString. -/
def versionString (v : List Nat) : String :=
  String.intercalate "." (v.map toString)

/-! ## Updater on-disk layout (browseros_server_updater.cc path helpers).
The constants header (browseros_server_constants.h) is not under src/; the
names below are fixed by the on-disk layout in section 3 of the spec. -/

/-- Modelled from the spec: name of the versions directory under the
execution dir (kVersionsDirectoryName; browseros_server_constants.h is not
under src/). -/
def kVersionsDirectoryName : String := "versions"

/-- Modelled from the spec: name of the transient pending-update directory
(kPendingUpdateDirectoryName; browseros_server_constants.h is not under
src/). -/
def kPendingUpdateDirectoryName : String := "pending"

/-- Modelled from the spec: name of the current-version marker file
(kCurrentVersionFileName; browseros_server_constants.h is not under src/). -/
def kCurrentVersionFileName : String := "current_version"

/-- Modelled from the spec: name of the downloaded archive inside pending/
(kDownloadFileName; browseros_server_constants.h is not under src/). -/
def kDownloadFileName : String := "download.zip"

/-- Modelled from the spec: how many downloaded versions the cleanup keeps
(kMaxVersionsToKeep, default 3; browseros_server_constants.h is not under
src/). -/
def kMaxVersionsToKeep : Nat := 3

/-- BrowserOSServerUpdater::GetVersionsDir (browseros_server_updater.cc:913). -/
def GetVersionsDir (execution_dir : List String) : List String :=
  execution_dir ++ [kVersionsDirectoryName]

/-- BrowserOSServerUpdater::GetVersionDir (browseros_server_updater.cc:917). -/
def GetVersionDir (execution_dir : List String) (version : List Nat) : List String :=
  GetVersionsDir execution_dir ++ [versionString version]

/-- BrowserOSServerUpdater::GetDownloadedBinaryPath
(browseros_server_updater.cc:935), non-Windows spelling. -/
def GetDownloadedBinaryPath (execution_dir : List String) (version : List Nat) :
    List String :=
  GetVersionDir execution_dir version ++ ["resources", "bin", "browseros_server"]

/-- BrowserOSServerUpdater::GetDownloadedResourcesPath
(browseros_server_updater.cc:947). -/
def GetDownloadedResourcesPath (execution_dir : List String) (version : List Nat) :
    List String :=
  GetVersionDir execution_dir version ++ ["resources"]

/-! ## Version cache and best-path resolution (claim C6) -/

/-- The two version caches of BrowserOSServerUpdater
(cached_downloaded_version_ and cached_bundled_version_ in
browseros_server_updater.h); none models an invalid base::Version. -/
structure UpdaterVersionCache where
  cached_downloaded_version_ : Option (List Nat)
  cached_bundled_version_ : Option (List Nat)
  deriving DecidableEq, Repr

/-- BrowserOSServerUpdater::GetBestServerBinaryPath
(browseros_server_updater.cc:952): translation of the conditional
downloaded.IsValid() AND (NOT bundled.IsValid() OR downloaded > bundled),
with the bundled binary path supplied by the manager. -/
def GetBestServerBinaryPath (c : UpdaterVersionCache)
    (execution_dir bundled_binary : List String) : List String :=
  match c.cached_downloaded_version_, c.cached_bundled_version_ with
  | some downloaded, none => GetDownloadedBinaryPath execution_dir downloaded
  | some downloaded, some bundled =>
    if versionGt downloaded bundled then GetDownloadedBinaryPath execution_dir downloaded
    else bundled_binary
  | none, _ => bundled_binary

/-- BrowserOSServerUpdater::GetBestServerResourcesPath
(browseros_server_updater.cc:966). -/
def GetBestServerResourcesPath (c : UpdaterVersionCache)
    (execution_dir bundled_resources : List String) : List String :=
  match c.cached_downloaded_version_, c.cached_bundled_version_ with
  | some downloaded, none => GetDownloadedResourcesPath execution_dir downloaded
  | some downloaded, some bundled =>
    if versionGt downloaded bundled then GetDownloadedResourcesPath execution_dir downloaded
    else bundled_resources
  | none, _ => bundled_resources

/-- The order the spec states the path contract with: the downloaded version
exceeds the bundled one when it is present and the bundled one is absent or
strictly smaller. -/
def specDownloadedExceedsBundled : Option (List Nat) → Option (List Nat) → Bool
  | some d, some b => versionGt d b
  | some _, none => true
  | none, _ => false

/-- The path-resolution contract as the spec words it: the downloaded binary
path iff downloaded exceeds bundled, else the bundled path. -/
def specBestBinaryPath (c : UpdaterVersionCache)
    (execution_dir bundled_binary : List String) : List String :=
  match c.cached_downloaded_version_ with
  | some d =>
    if specDownloadedExceedsBundled (some d) c.cached_bundled_version_ then
      GetDownloadedBinaryPath execution_dir d
    else bundled_binary
  | none => bundled_binary

/-- The path-resolution contract as the spec words it, resources variant. -/
def specBestResourcesPath (c : UpdaterVersionCache)
    (execution_dir bundled_resources : List String) : List String :=
  match c.cached_downloaded_version_ with
  | some d =>
    if specDownloadedExceedsBundled (some d) c.cached_bundled_version_ then
      GetDownloadedResourcesPath execution_dir d
    else bundled_resources
  | none => bundled_resources

/-! ## Ed25519 signature verification (claim C7) -/

/-- ED25519_PUBLIC_KEY_LEN (boringssl curve25519.h). -/
def ED25519_PUBLIC_KEY_LEN : Nat := 32

/-- ED25519_SIGNATURE_LEN (boringssl curve25519.h). -/
def ED25519_SIGNATURE_LEN : Nat := 64

/-- VerifyEd25519Signature (browseros_server_updater.cc:120). base64Decode
models base::Base64Decode, readFileToString models base::ReadFileToString
(none on a read error), and ed25519Verify the raw ED25519_verify primitive
on (message, signature, public key). -/
def VerifyEd25519Signature
    (base64Decode : String → Option (List Nat))
    (readFileToString : List String → Option (List Nat))
    (ed25519Verify : List Nat → List Nat → List Nat → Bool)
    (file_path : List String)
    (signature_base64 : String)
    (public_key_base64 : String) : Bool :=
  match base64Decode public_key_base64 with
  | none => false
  | some public_key_bytes =>
    if public_key_bytes.length ≠ ED25519_PUBLIC_KEY_LEN then false
    else
      match base64Decode signature_base64 with
      | none => false
      | some signature_bytes =>
        if signature_bytes.length ≠ ED25519_SIGNATURE_LEN then false
        else
          match readFileToString file_path with
          | none => false
          | some file_contents =>
            if ed25519Verify file_contents signature_bytes public_key_bytes then true
            else false

/-! ## Verify-and-extract (claim C2) -/

/-- VerifyExtractResult (browseros_server_updater.cc:222). -/
structure VerifyExtractResult where
  success : Bool := false
  error : String := ""
  deriving DecidableEq, Repr

/-- The pieces of on-disk state DoVerifyAndExtract touches: whether
pending/download.zip exists and whether the destination directory
versions/v exists. -/
structure PendingFs where
  zipExists : Bool
  destExists : Bool
  deriving DecidableEq, Repr

/-- One run of DoVerifyAndExtract with its observable effects; extracted
records whether step 3 (create the destination directory and unzip into it)
ran. -/
structure VerifyExtractRun where
  result : VerifyExtractResult
  fs : PendingFs
  extracted : Bool
  deriving DecidableEq, Repr

/-- DoVerifyAndExtract (browseros_server_updater.cc:227). verifyOk is the
value VerifyEd25519Signature returned for pending/download.zip against
kServerUpdatePublicKey; cleanStaleOk whether the recursive delete of a
pre-existing destination directory succeeds; extractError the message
ExtractZipFile returned (none on success, in which case the destination
directory holds the extracted contents). -/
def DoVerifyAndExtract (verifyOk cleanStaleOk : Bool) (extractError : Option String)
    (fs : PendingFs) : VerifyExtractRun :=
  if !verifyOk then
    { result := { success := false, error := "Signature verification failed" }
      fs := { fs with zipExists := false }
      extracted := false }
  else if fs.destExists && !cleanStaleOk then
    { result := { success := false, error := "Failed to clean stale version directory" }
      fs := { fs with zipExists := false }
      extracted := false }
  else
    match extractError with
    | some e =>
      { result := { success := false, error := e }
        fs := { zipExists := false, destExists := false }
        extracted := true }
    | none =>
      { result := { success := true, error := "" }
        fs := { zipExists := false, destExists := true }
        extracted := true }

/-! ## Smoke-test failure handling (claim C1) -/

/-- Properties of one server.ota.error metrics event as assembled by
BrowserOSServerUpdater::OnError (browseros_server_updater.cc:1037). -/
structure OtaErrorEvent where
  stage : String
  error : String
  deriving DecidableEq, Repr

/-- Effects of BrowserOSServerUpdater::OnError: the emitted server.ota.error
event, and whether its version-directory cleanup branch fired; that branch
fires only when a pending version is set and the stage is "test" or
"hotswap" (browseros_server_updater.cc:1052). -/
structure OnErrorEffect where
  event : OtaErrorEvent
  versionDirCleaned : Bool
  deriving DecidableEq, Repr

/-- BrowserOSServerUpdater::OnError (browseros_server_updater.cc:1037);
pendingVersionValid is pending_item_.version.IsValid(). -/
def OnError (pendingVersionValid : Bool) (stage error : String) : OnErrorEffect :=
  { event := { stage := stage, error := error }
    versionDirCleaned := pendingVersionValid && (stage == "test" || stage == "hotswap") }

/-- Observable outcome of BrowserOSServerUpdater::OnBinaryTestComplete:
either the smoke test failed, recording whether the version directory was
deleted by the task posted at the call site together with the OnError
effects, or the flow proceeds to the server status check. -/
inductive BinaryTestOutcome where
  | failed (versionDirDeletedAtCallSite : Bool) (onErrorEffect : OnErrorEffect)
  | proceedToStatusCheck
  deriving DecidableEq, Repr

/-- BrowserOSServerUpdater::OnBinaryTestComplete
(browseros_server_updater.cc:678): on a non-zero exit code it posts a
recursive delete of the version directory and calls OnError with stage
"verify"; on exit code 0 it proceeds to CheckServerStatus. -/
def OnBinaryTestComplete (pendingVersionValid : Bool) (exit_code : Int)
    (_output : String) : BinaryTestOutcome :=
  if exit_code ≠ 0 then
    .failed true (OnError pendingVersionValid "verify" "Binary --version check failed")
  else
    .proceedToStatusCheck

/-! ## Status gate before hot-swap (claim C8) -/

/-- Minimal model of a parsed base::Value for the /status response: only
whether the document is a dictionary and whether a key holds a boolean
matter to the gate. -/
inductive JsonValue where
  | dict (fields : List (String × JsonValue))
  | boolean (b : Bool)
  | other
  deriving Repr

/-- base::Value::Dict::FindBool: the value of the first field with the given
key, when that value is a boolean. -/
def findBool : List (String × JsonValue) → String → Option Bool
  | [], _ => none
  | (k, v) :: rest, key =>
    if k = key then
      match v with
      | .boolean b => some b
      | _ => none
    else findBool rest key

/-- BrowserOSServerUpdater::OnStatusFetched (browseros_server_updater.cc:728):
the can_update value passed on to OnServerStatusChecked. parseJson models
base::JSONReader::Read; response is none on a network error. -/
def OnStatusFetched (parseJson : String → Option JsonValue)
    (response : Option String) : Bool :=
  match response with
  | none => true
  | some body =>
    match parseJson body with
    | none => true
    | some (.dict fields) =>
      match findBool fields "can_update" with
      | none => true
      | some b => b
    | some _ => true

/-- What BrowserOSServerUpdater::OnServerStatusChecked
(browseros_server_updater.cc:759) does: either proceed to PerformHotSwap, or
postpone, emitting server.ota.busy and resetting state. -/
structure StatusGateResult where
  hotSwapProceeds : Bool
  busyEmitted : Bool
  deriving DecidableEq, Repr

/-- BrowserOSServerUpdater::OnServerStatusChecked
(browseros_server_updater.cc:759). -/
def OnServerStatusChecked (can_update : Bool) : StatusGateResult :=
  if !can_update then { hotSwapProceeds := false, busyEmitted := true }
  else { hotSwapProceeds := true, busyEmitted := false }

/-- The whole status gate: fetch result fed through OnStatusFetched into
OnServerStatusChecked. -/
def statusGate (parseJson : String → Option JsonValue)
    (response : Option String) : StatusGateResult :=
  OnServerStatusChecked (OnStatusFetched parseJson response)

/-! ## Update-check entry (claim C10) -/

/-- BrowserOSServerUpdater::State (browseros_server_updater.h:66). -/
inductive UpdaterState where
  | kIdle
  | kFetchingAppcast
  | kDownloading
  | kVerifying
  | kExtracting
  | kTesting
  deriving DecidableEq, Repr

/-- The updater members CheckNow reads and writes
(browseros_server_updater.h:147): the state machine state, the in-progress
flag, and the two version-cache-loaded flags. -/
structure UpdaterFlags where
  state_ : UpdaterState
  update_in_progress_ : Bool
  bundled_version_loaded_ : Bool
  downloaded_version_loaded_ : Bool
  deriving DecidableEq, Repr

/-- Entry effect of BrowserOSServerUpdater::FetchAppcast
(browseros_server_updater.cc:410): the state moves to kFetchingAppcast and
the in-progress flag is set before the network load is issued. -/
def FetchAppcast (s : UpdaterFlags) : UpdaterFlags :=
  { s with state_ := .kFetchingAppcast, update_in_progress_ := true }

/-- BrowserOSServerUpdater::CheckNow (browseros_server_updater.cc:392); the
returned flag records whether an appcast fetch began. -/
def CheckNow (s : UpdaterFlags) : UpdaterFlags × Bool :=
  if !s.bundled_version_loaded_ || !s.downloaded_version_loaded_ then (s, false)
  else if s.update_in_progress_ then (s, false)
  else (FetchAppcast s, true)

/-- BrowserOSServerUpdater::OnUpdateTimer (browseros_server_updater.cc:406):
the periodic timer just calls CheckNow. -/
def OnUpdateTimer (s : UpdaterFlags) : UpdaterFlags × Bool :=
  CheckNow s

/-! ## Supervisor models (claims C3, C4, C5).
BrowserOSServerManager is declared and tested under src/ but its
implementation file is not there; the models below follow the spec and the
unit tests in browseros_server_manager_unittest.cc. -/

/-- server_utils::ServerState as the spec records it: the sidecar pid and
its OS-reported creation time (the declaring header is not under src/; the
unit tests set exactly these two fields). -/
structure ServerState where
  pid : Nat
  creation_time : Nat
  deriving DecidableEq, Repr

/-- What orphan recovery did: whether it force-terminated a recorded process
and whether it called StateStore Delete. -/
structure RecoveryActions where
  terminatedOrphan : Bool
  deletedStateFile : Bool
  deriving DecidableEq, Repr

/-- Modelled from the spec: BrowserOSServerManager orphan recovery during
Start is not under src/. Termination follows the spec (kill the recorded
process when it is alive with matching creation time). The Delete decision
follows the unit tests RecoverFromOrphan_NoStateFile (Read returns nullopt,
Delete expected zero times) and RecoverFromOrphan_ProcessGone (a state is
read, Delete expected once), which the cited test file states over the
mocked state store; on the no-state path they diverge from the spec sentence
that Delete runs in all cases. -/
def RecoverFromOrphan (stateRead : Option ServerState)
    (processAlive : ServerState → Bool) : RecoveryActions :=
  match stateRead with
  | none => { terminatedOrphan := false, deletedStateFile := false }
  | some st => { terminatedOrphan := processAlive st, deletedStateFile := true }

/-- The health-failure bookkeeping of BrowserOSServerManager the unit tests
observe: GetConsecutiveHealthCheckFailures and
DidLastRestartRevalidateAllPorts. -/
structure HealthState where
  consecutive_failures : Nat
  last_restart_revalidated_all_ports : Bool
  deriving DecidableEq, Repr

/-- The restart a health-check completion triggers. -/
inductive RestartKind where
  | noRestart
  | targeted
  | fullRevalidation
  deriving DecidableEq, Repr

/-- Modelled from the spec: BrowserOSServerManager::OnHealthCheckComplete is
not under src/. On success the consecutive-failure counter resets; on
failure it increments, a count below 3 triggers a targeted restart (reusing
the resolved ports), and the 3rd consecutive failure triggers a full port
revalidation, records that the last restart revalidated all ports, and
resets the counter, as the unit tests
HealthCheckFail_ThreeConsecutiveFailures_TriggersFullRevalidation and
HealthCheckPass_ResetsConsecutiveFailureCount assert. -/
def OnHealthCheckComplete (s : HealthState) (success : Bool) :
    HealthState × RestartKind :=
  if success then
    ({ s with consecutive_failures := 0 }, .noRestart)
  else
    let n := s.consecutive_failures + 1
    if n < 3 then
      ({ consecutive_failures := n, last_restart_revalidated_all_ports := false },
        .targeted)
    else
      ({ consecutive_failures := 0, last_restart_revalidated_all_ports := true },
        .fullRevalidation)

/-- How RestartServerForUpdate answered its caller: the callback invoked
synchronously with a result, or deferred behind the asynchronous
terminate-and-relaunch sequence. -/
inductive CallbackCall where
  | immediate (result : Bool)
  | deferred
  deriving DecidableEq, Repr

/-- The supervisor state RestartServerForUpdate may touch: the serialization
flag, the resolved ports, the process handle validity, and the persisted
state file. -/
structure ManagerRestartState where
  is_restarting : Bool
  ports : ServerPorts
  process_valid : Bool
  state_file : Option ServerState
  deriving DecidableEq, Repr

/-- Modelled from the spec: BrowserOSServerManager::RestartServerForUpdate
is not under src/. When a restart is already in progress the callback is
invoked with false immediately and nothing is mutated; otherwise the
restarting flag is set and the terminate-and-relaunch sequence continues
asynchronously (not modelled further), as the unit test
RestartForUpdate_FailsWhenAlreadyRestarting asserts. -/
def RestartServerForUpdate (s : ManagerRestartState) :
    ManagerRestartState × CallbackCall :=
  if s.is_restarting then (s, .immediate false)
  else ({ s with is_restarting := true }, .deferred)

/-! ## Theorems for the claims -/

/-- Claim C1 (code_bug): the claim and the spec say the smoke-test failure
path emits server.ota.error with stage "test"; the code deletes the version
directory at the call site but calls OnError with stage "verify", so the
cleanup branch OnError reserves for the stages "test" and "hotswap" does not
even fire. Evaluated at exit code 1 with a pending version set. -/
theorem c1_smoke_test_failure_stage_is_verify_not_test :
    OnBinaryTestComplete true 1 "Process failed to run" =
      .failed true
        { event := { stage := "verify", error := "Binary --version check failed" }
          versionDirCleaned := false } ∧
    ("verify" : String) ≠ "test" :=
  ⟨by decide, by decide⟩

/-- Claim C2: in DoVerifyAndExtract, extraction runs only when the Ed25519
verification of pending/download.zip returned true; on a verification
failure the ZIP is deleted, no extraction is performed, the step fails, and
(the destination being absent beforehand, as the caller established via
OnVersionExistsCheck) no version directory exists afterwards. -/
theorem c2_signature_gates_extraction (verifyOk cleanStaleOk : Bool)
    (extractError : Option String) (fs : PendingFs) (h : fs.destExists = false) :
    ((DoVerifyAndExtract verifyOk cleanStaleOk extractError fs).extracted = true →
      verifyOk = true) ∧
    (verifyOk = false →
      (DoVerifyAndExtract verifyOk cleanStaleOk extractError fs).fs.zipExists = false ∧
      (DoVerifyAndExtract verifyOk cleanStaleOk extractError fs).fs.destExists = false ∧
      (DoVerifyAndExtract verifyOk cleanStaleOk extractError fs).extracted = false ∧
      (DoVerifyAndExtract verifyOk cleanStaleOk extractError fs).result.success = false) := by
  obtain ⟨z, dE⟩ := fs
  cases h
  cases verifyOk <;> cases extractError <;>
    simp [DoVerifyAndExtract]

/-- Witness for claim C2 at a concrete failed verification. -/
theorem c2_signature_gates_extraction_witness :
    (DoVerifyAndExtract false true none ⟨true, false⟩).fs.zipExists = false ∧
    (DoVerifyAndExtract false true none ⟨true, false⟩).fs.destExists = false ∧
    (DoVerifyAndExtract false true none ⟨true, false⟩).extracted = false ∧
    (DoVerifyAndExtract false true none ⟨true, false⟩).result.success = false :=
  (c2_signature_gates_extraction false true none ⟨true, false⟩ rfl).2 rfl

/-- Claim C3, counterexample: the claim says StateStore Delete runs in all
cases, including when Read returned no state; on the no-state path of the
modelled orphan recovery (fixed by the unit test RecoverFromOrphan_NoStateFile,
which expects Delete zero times) no delete happens. -/
theorem c3_no_state_file_skips_delete :
    (RecoverFromOrphan none (fun _ => false)).deletedStateFile = false := rfl

/-- Claim C3, amended: orphan recovery calls StateStore Delete exactly when
StateStore Read returned a state; when the state file is absent no delete is
issued. -/
theorem c3_delete_iff_state_read (stateRead : Option ServerState)
    (processAlive : ServerState → Bool) :
    (RecoverFromOrphan stateRead processAlive).deletedStateFile = stateRead.isSome := by
  cases stateRead <;> rfl

/-- Claim C4: from a clean counter, three consecutive health-check failures
with no intervening success produce targeted restarts on the first two
failures, exactly one full port revalidation on the third, and a counter
equal to 0 (with the revalidation recorded) immediately afterwards. -/
theorem c4_three_consecutive_failures_escalate_once (s0 : HealthState)
    (h : s0.consecutive_failures = 0) :
    (OnHealthCheckComplete s0 false).2 = RestartKind.targeted ∧
    (OnHealthCheckComplete (OnHealthCheckComplete s0 false).1 false).2 =
      RestartKind.targeted ∧
    (OnHealthCheckComplete (OnHealthCheckComplete
        (OnHealthCheckComplete s0 false).1 false).1 false).2 =
      RestartKind.fullRevalidation ∧
    (OnHealthCheckComplete (OnHealthCheckComplete
        (OnHealthCheckComplete s0 false).1 false).1 false).1.consecutive_failures = 0 ∧
    (OnHealthCheckComplete (OnHealthCheckComplete
        (OnHealthCheckComplete s0 false).1 false).1
        false).1.last_restart_revalidated_all_ports = true := by
  obtain ⟨n, fl⟩ := s0
  cases h
  simp [OnHealthCheckComplete]

/-- Witness for claim C4 from the initial health state. -/
theorem c4_three_consecutive_failures_witness :
    (OnHealthCheckComplete (OnHealthCheckComplete
        (OnHealthCheckComplete ⟨0, false⟩ false).1 false).1 false).2 =
      RestartKind.fullRevalidation :=
  (c4_three_consecutive_failures_escalate_once ⟨0, false⟩ rfl).2.2.1

/-- Claim C5: RestartServerForUpdate called while a restart is in progress
answers its caller synchronously with false and leaves the supervisor state
(ports, process, state file, the whole record) unchanged. -/
theorem c5_restart_while_restarting_fails_sync (s : ManagerRestartState)
    (h : s.is_restarting = true) :
    RestartServerForUpdate s = (s, CallbackCall.immediate false) ∧
    (RestartServerForUpdate s).1.ports = s.ports ∧
    (RestartServerForUpdate s).1.process_valid = s.process_valid ∧
    (RestartServerForUpdate s).1.state_file = s.state_file := by
  simp [RestartServerForUpdate, h]

/-- Witness for claim C5 at a concrete in-progress state. -/
theorem c5_restart_while_restarting_witness :
    RestartServerForUpdate ⟨true, {}, true, none⟩ =
      (⟨true, {}, true, none⟩, CallbackCall.immediate false) :=
  (c5_restart_while_restarting_fails_sync ⟨true, {}, true, none⟩ rfl).1

/-- Claim C6: the best-path getters agree with the spec contract, returning
the downloaded-version paths exactly when the cached downloaded version
exceeds the cached bundled one as an optional version, else the bundled
paths. -/
theorem c6_best_path_resolution (c : UpdaterVersionCache) (e bb br : List String) :
    GetBestServerBinaryPath c e bb = specBestBinaryPath c e bb ∧
    GetBestServerResourcesPath c e br = specBestResourcesPath c e br := by
  obtain ⟨d, b⟩ := c
  cases d <;> cases b <;>
    simp [GetBestServerBinaryPath, specBestBinaryPath, GetBestServerResourcesPath,
      specBestResourcesPath, specDownloadedExceedsBundled]

/-- Claim C7: the Ed25519 verifier returns true exactly when the key decodes
to 32 bytes, the signature decodes to 64 bytes, the file is readable and the
raw verification succeeds; any decode failure, length mismatch, read error
or verification failure yields false. -/
theorem c7_verify_signature_true_iff (base64Decode : String → Option (List Nat))
    (readFileToString : List String → Option (List Nat))
    (ed25519Verify : List Nat → List Nat → List Nat → Bool)
    (file_path : List String) (signature_base64 public_key_base64 : String) :
    VerifyEd25519Signature base64Decode readFileToString ed25519Verify file_path
        signature_base64 public_key_base64 = true ↔
      ∃ public_key_bytes signature_bytes file_contents,
        base64Decode public_key_base64 = some public_key_bytes ∧
        public_key_bytes.length = ED25519_PUBLIC_KEY_LEN ∧
        base64Decode signature_base64 = some signature_bytes ∧
        signature_bytes.length = ED25519_SIGNATURE_LEN ∧
        readFileToString file_path = some file_contents ∧
        ed25519Verify file_contents signature_bytes public_key_bytes = true := by
  cases hk : base64Decode public_key_base64 with
  | none => simp [VerifyEd25519Signature, hk]
  | some kb =>
    cases hs : base64Decode signature_base64 with
    | none => simp [VerifyEd25519Signature, hk, hs]
    | some sb =>
      cases hf : readFileToString file_path with
      | none => simp [VerifyEd25519Signature, hk, hs, hf]
      | some m =>
        by_cases hkl : kb.length = ED25519_PUBLIC_KEY_LEN
        · by_cases hsl : sb.length = ED25519_SIGNATURE_LEN
          · cases hv : ed25519Verify m sb kb <;>
              simp [VerifyEd25519Signature, hk, hs, hf, hkl, hsl, hv]
          · simp [VerifyEd25519Signature, hk, hs, hf, hkl, hsl]
        · simp [VerifyEd25519Signature, hk, hkl]

/-- Claim C8: the status gate postpones the hot-swap exactly when the
response is present, parses as a JSON dictionary and carries can_update set
to false, in which case (and only then) server.ota.busy is emitted; a
network error, non-JSON or non-object response, or a missing can_update
field all fail open and the hot-swap proceeds. -/
theorem c8_status_gate_fail_open (parseJson : String → Option JsonValue)
    (response : Option String) :
    ((statusGate parseJson response).hotSwapProceeds = false ↔
      ∃ body fields, response = some body ∧
        parseJson body = some (.dict fields) ∧
        findBool fields "can_update" = some false) ∧
    (statusGate parseJson response).busyEmitted =
      !(statusGate parseJson response).hotSwapProceeds := by
  cases response with
  | none => simp [statusGate, OnStatusFetched, OnServerStatusChecked]
  | some body =>
    cases hp : parseJson body with
    | none => simp [statusGate, OnStatusFetched, OnServerStatusChecked, hp]
    | some j =>
      cases j with
      | dict fields =>
        cases hb : findBool fields "can_update" with
        | none => simp [statusGate, OnStatusFetched, OnServerStatusChecked, hp, hb]
        | some b =>
          cases b <;> simp [statusGate, OnStatusFetched, OnServerStatusChecked, hp, hb]
      | boolean b => simp [statusGate, OnStatusFetched, OnServerStatusChecked, hp]
      | other => simp [statusGate, OnStatusFetched, OnServerStatusChecked, hp]

/-- Claim C9: a launch config is valid exactly when the three ports are
strictly positive and the exe and execution paths are non-empty; the second
conjunct shows a config with the three ports equal, below 1024, and no
fallback_exe that is nevertheless valid, so distinctness, the 1024 bound and
the fallback path are not required. -/
theorem c9_launch_config_is_valid_iff :
    (∀ cfg : ServerLaunchConfig, cfg.IsValid = true ↔
      (0 < cfg.ports.cdp ∧ 0 < cfg.ports.mcp ∧ 0 < cfg.ports.extension ∧
        ¬ cfg.paths.exe = "" ∧ ¬ cfg.paths.execution = "")) ∧
    ServerLaunchConfig.IsValid
        { ports := { cdp := 80, mcp := 80, extension := 80 }
          paths := { exe := "srv", execution := "data" } } = true := by
  constructor
  · intro cfg
    simp [ServerLaunchConfig.IsValid, ServerPorts.IsValid, ServerPaths.IsValid,
      and_assoc]
  · decide

/-- Claim C10: while either version cache is still unloaded, CheckNow (and
hence the timer tick) is a no-op: no appcast fetch begins and the updater
state is unchanged. -/
theorem c10_check_now_noop_before_caches_loaded (s : UpdaterFlags)
    (h : s.bundled_version_loaded_ = false ∨ s.downloaded_version_loaded_ = false) :
    CheckNow s = (s, false) ∧ OnUpdateTimer s = (s, false) := by
  have hc : CheckNow s = (s, false) := by
    rcases h with h | h <;> simp [CheckNow, h]
  exact ⟨hc, hc⟩

/-- Witness for claim C10 at the freshly started updater state. -/
theorem c10_check_now_noop_witness :
    CheckNow ⟨.kIdle, false, false, false⟩ = (⟨.kIdle, false, false, false⟩, false) :=
  (c10_check_now_noop_before_caches_loaded ⟨.kIdle, false, false, false⟩ (Or.inl rfl)).1

end BrowserOS
